import Mathlib

/-
  Verification of the crate-bunker offline-resilient contact-form subsystem.

  Shallow embedding of:
  - the server contact endpoint (app/api/contact/route.ts): request
    sanitisation, honeypot, field validation, provider call, response shape;
  - the client contact form (components/ContactForm.tsx): onSubmit effects,
    the send helper success test, the cooldown / outbox side effects;
  - the connectivity probe isOnline and the outbox flush loop
    (app/ping/route.tsx, ContactForm variants);
  - the service worker navigation fetch handler (public/sw.js).

  JavaScript strings are modelled as lists of characters; the .length of a
  string is the list length (equal to the UTF-16 length for the code points
  involved here).  Network effects are modelled by passing each call result
  (response / thrown exception) as an explicit argument.
-/

namespace CrateBunker

/-- JavaScript strings, modelled as lists of characters. -/
abbrev Str := List Char

/-- Coerce a Lean string literal to the character-list model. -/
def str (s : String) : Str := s.data

/- ================================================================
   Server side: app/api/contact/route.ts
   ================================================================ -/

/-- Control characters removed by sanitize: U+0000 to U+001F and U+007F
    (the regex `[\u0000-\u001F\u007F]` in the source). -/
def isCtl (c : Char) : Bool := c.toNat < 32 || c.toNat == 127

/-- Characters removed at either end by the JavaScript String.prototype.trim:
    WhiteSpace and LineTerminator code points. -/
def jsWhitespace (c : Char) : Bool :=
  c.toNat == 9 || c.toNat == 10 || c.toNat == 11 || c.toNat == 12 ||
  c.toNat == 13 || c.toNat == 32 || c.toNat == 0xa0 || c.toNat == 0x1680 ||
  (0x2000 ≤ c.toNat && c.toNat ≤ 0x200a) || c.toNat == 0x2028 ||
  c.toNat == 0x2029 || c.toNat == 0x202f || c.toNat == 0x205f ||
  c.toNat == 0x3000 || c.toNat == 0xfeff

/-- JavaScript s.trim(): strip whitespace from both ends. -/
def jsTrim (s : Str) : Str :=
  ((s.dropWhile jsWhitespace).reverse.dropWhile jsWhitespace).reverse

/-- The sanitize helper of the route:
    `s.replace(/[\u0000-\u001F\u007F]/g, '').trim()`. -/
def sanitize (s : Str) : Str := jsTrim (s.filter (fun c => !isCtl c))

/-- What the regex metacharacter dot matches: any character that is not a
    line terminator. -/
def regexDot (c : Char) : Bool :=
  !(c.toNat == 10 || c.toNat == 13 || c.toNat == 0x2028 || c.toNat == 0x2029)

/-- The unanchored test of the regex `/.+@.+\..+/` used by `isEmail` on the
    server and by the client validation: the string contains one or more
    dot-matching characters, then a literal at sign, then one or more
    dot-matching characters, then a literal period, then at least one
    dot-matching character.  `i` is the index of the at sign and `j` the
    index of the period of a match. -/
def jsEmailTest (s : Str) : Bool :=
  (List.range s.length).any fun i =>
    (List.range s.length).any fun j =>
      decide (1 ≤ i) && decide (i + 2 ≤ j) && decide (j + 2 ≤ s.length) &&
      (s.getD i ' ' == '@') && regexDot (s.getD (i - 1) ' ') &&
      (s.getD j ' ' == '.') &&
      ((List.range (j - i - 1)).all fun t => regexDot (s.getD (i + 1 + t) ' ')) &&
      regexDot (s.getD (j + 1) ' ')

/-- The payload produced by parseRequest: every field defaults to the empty
    string when absent from the request body. -/
structure Payload where
  name : Str
  email : Str
  message : Str
  website : Str
deriving DecidableEq, Repr

/-- Responses the contact endpoint can produce: a JSON body with a status
    and an error string, or a redirect carrying the sent flag and an
    optional error flag in the URL. -/
inductive ContactResponse where
  | json (status : Nat) (ok : Bool) (error : Str)
  | redirect (status : Nat) (sent : Bool) (errorFlag : Option Str)
deriving DecidableEq, Repr

/-- The badRequest helper: a 400 JSON response with ok set to false. -/
def badRequest (msg : Str) : ContactResponse := .json 400 false msg

/-- HTTP status of a contact-endpoint response. -/
def responseStatus : ContactResponse → Nat
  | .json s _ _ => s
  | .redirect s _ _ => s

/-- Field values after the sanitisation step of POST: an empty raw name is
    replaced by the literal Anonymous before sanitising, the email and
    message are sanitised, the honeypot is trimmed. -/
def sanitizePayload (raw : Payload) : Payload where
  name := sanitize (if raw.name = [] then str "Anonymous" else raw.name)
  email := sanitize raw.email
  message := sanitize raw.message
  website := jsTrim raw.website

/-- The early-return validation checks of POST, in source order: honeypot,
    name, email, message.  Returns the response of the first failing check,
    or none when validation passes. -/
def validateContact (raw : Payload) : Option ContactResponse :=
  if (sanitizePayload raw).website ≠ [] then
    some (badRequest (str "Bot detected."))
  else if (sanitizePayload raw).name = [] ∨
      120 < (sanitizePayload raw).name.length then
    some (badRequest (str "Invalid name."))
  else if ¬ jsEmailTest (sanitizePayload raw).email = true ∨
      254 < (sanitizePayload raw).email.length then
    some (badRequest (str "Invalid email."))
  else if (sanitizePayload raw).message = [] ∨
      (sanitizePayload raw).message.length < 2 ∨
      4000 < (sanitizePayload raw).message.length then
    some (badRequest (str "Invalid message."))
  else none

/-- Outcome of the resend.emails.send call: a result without an error, a
    result carrying an error object, or a thrown exception. -/
inductive ProviderOutcome where
  | sent
  | errored
  | threw
deriving DecidableEq, Repr

/-- The message handed to the mail provider: the sender name interpolated
    into the HTML body, the reply-to address, and the message text. -/
structure Mail where
  name : Str
  replyTo : Str
  message : Str
deriving DecidableEq, Repr

/-- Result of one POST execution: the HTTP response, and the message passed
    to the provider when the provider call was reached. -/
structure PostResult where
  response : ContactResponse
  mail : Option Mail
deriving DecidableEq, Repr

/-- The POST handler of app/api/contact/route.ts as a function of the parsed
    payload, whether RESEND_API_KEY is configured, and the provider call
    outcome.  A provider error yields a 303 redirect with sent equal to 0 and
    the email_failed error flag; a thrown provider exception is caught and
    yields a 303 redirect with the server error flag; success yields a 303
    redirect with sent equal to 1. -/
def contactPOST (raw : Payload) (apiKey : Bool) (provider : ProviderOutcome) :
    PostResult :=
  match validateContact raw with
  | some r => ⟨r, none⟩
  | none =>
    if !apiKey then ⟨.json 500 false (str "Missing RESEND_API_KEY"), none⟩
    else
      let p := sanitizePayload raw
      let m : Mail := ⟨p.name, p.email, p.message⟩
      match provider with
      | .sent => ⟨.redirect 303 true none, some m⟩
      | .errored => ⟨.redirect 303 false (some (str "email_failed")), some m⟩
      | .threw => ⟨.redirect 303 false (some (str "server")), some m⟩

/- ================================================================
   Client side: the connectivity probe isOnline
   (app/ping/route.tsx and components/ContactForm.tsx variants)
   ================================================================ -/

/-- Outcome of one probe fetch: any HTTP response (with its status), a
    network-level failure (the fetch rejected), or the 2.5 second abort
    timer firing. -/
inductive ProbeOutcome where
  | resp (status : Nat)
  | netFail
  | timeout
deriving DecidableEq, Repr

/-- The tryFetch helper of isOnline: returns true when the fetch resolved
    with any response (res.ok is never consulted), false when it threw,
    which happens only on a network failure or the abort timeout. -/
def tryFetch : ProbeOutcome → Bool
  | .resp _ => true
  | .netFail => false
  | .timeout => false

/-- The isOnline probe: false immediately when navigator.onLine is false,
    otherwise the ping-endpoint probe or, failing that, the site-root
    probe.  `p1` is the outcome the /api/ping fetch would have, `p2` the
    outcome the root fetch would have. -/
def isOnline (navOnLine : Bool) (p1 p2 : ProbeOutcome) : Bool :=
  navOnLine && (tryFetch p1 || tryFetch p2)

/- ================================================================
   Client side: the outbox flush loop (app/ping/route.tsx, flush)
   ================================================================ -/

/-- One queued submission as stored in the localStorage outbox. -/
structure OutboxItem where
  name : Str
  email : Str
  message : Str
  website : Option Str
  ts : Nat
deriving DecidableEq, Repr

/-- Result of the POST fetch for one dequeued item: a response with its
    res.ok flag, or a thrown network exception. -/
inductive FetchResult where
  | resp (ok : Bool)
  | netThrow
deriving DecidableEq, Repr

/-- State when the flush while-loop stops: the outbox contents, the anySent
    flag, and whether the loop was aborted by an uncaught exception (in
    which case the code after the loop does not run). -/
structure FlushState where
  outbox : List OutboxItem
  anySent : Bool
  threw : Bool
deriving DecidableEq, Repr

/-- The while-loop of flush.  `online k` is the result of the isOnline call
    of loop iteration k, `respAt k` the outcome of the POST of iteration k.
    Per iteration: exit when the outbox is empty or isOnline is false;
    otherwise dequeue the front item and POST it; on a response with res.ok
    false, write the item back at the front of the outbox and break; on
    res.ok true, set anySent and continue; a thrown fetch propagates out of
    the loop (there is no catch), leaving the item dequeued. -/
def flushLoop (online : Nat → Bool) (respAt : Nat → FetchResult) :
    Nat → List OutboxItem → Bool → FlushState
  | _, [], anySent => ⟨[], anySent, false⟩
  | k, next :: rest, anySent =>
    if online k then
      match respAt k with
      | .resp true => flushLoop online respAt (k + 1) rest true
      | .resp false => ⟨next :: rest, anySent, false⟩
      | .netThrow => ⟨rest, anySent, true⟩
    else ⟨next :: rest, anySent, false⟩

/-- One full flush cycle.  `online0` is the initial isOnline check before
    the loop; the early returns fire when the outbox is empty or the device
    is offline.  The second component records whether the sent-once lock
    was written after the loop, which happens exactly when the loop ended
    without an exception and anySent is true. -/
def flush (online0 : Bool) (online : Nat → Bool) (respAt : Nat → FetchResult)
    (outbox : List OutboxItem) : FlushState × Bool :=
  if outbox = [] then (⟨outbox, false, false⟩, false)
  else if !online0 then (⟨outbox, false, false⟩, false)
  else
    let s := flushLoop online respAt 0 outbox false
    (s, !s.threw && s.anySent)

/- ================================================================
   Client side: components/ContactForm.tsx (cooldown variant)
   ================================================================ -/

/-- Result of the send helper call in onSubmit: it returned true, it
    returned false, or the fetch threw. -/
inductive SendOutcome where
  | ok
  | notOk
  | threw
deriving DecidableEq, Repr

/-- The success test of the send helper:
    `res.ok || res.status === 303 || res.status === 204`. -/
def sendTreatsAsSuccess (status : Nat) : Bool :=
  (200 ≤ status && status ≤ 299) || status == 303 || status == 204

/-- The payload built at the top of onSubmit: name, email and message are
    trimmed; the honeypot value is taken verbatim. -/
def submittedPayload (name email message website : Str) : Payload :=
  ⟨jsTrim name, jsTrim email, jsTrim message, website⟩

/-- The quick client validation of onSubmit:
    `!payload.name || !isEmail(payload.email) || !payload.message` fails. -/
def clientValid (p : Payload) : Bool :=
  !(p.name == []) && jsEmailTest p.email && !(p.message == [])

/-- Projection fact: the payload built by onSubmit carries the honeypot
    value verbatim. -/
@[simp] theorem submittedPayload_website (n e m w : Str) :
    (submittedPayload n e m w).website = w := rfl

/-- Observable effects of one onSubmit run: whether the mail endpoint was
    called, the payload pushed onto the outbox (if any), whether the
    cooldown timestamp key was written, and whether the fields were
    cleared. -/
structure SubmitEffects where
  networkCalled : Bool
  queued : Option Payload
  lastSentWritten : Bool
  cleared : Bool
deriving DecidableEq, Repr

/-- No-effect run: onSubmit returned before touching network, outbox,
    cooldown or fields. -/
def noEffects : SubmitEffects := ⟨false, none, false, false⟩

/-- The onSubmit handler of components/ContactForm.tsx as a function of the
    raw field values, the cooldown state, the navigator.onLine flag and the
    outcome of the send call.  Branches in source order: client validation,
    honeypot, cooldown, the offline branch (enqueue and write the cooldown
    timestamp), then the online send with its three outcomes (success
    writes the timestamp and clears the fields; a false return or a thrown
    fetch enqueues the payload). -/
def onSubmit (name email message website : Str) (inCooldown online : Bool)
    (sendRes : SendOutcome) : SubmitEffects :=
  let p := submittedPayload name email message website
  if !clientValid p then noEffects
  else if p.website ≠ [] then noEffects
  else if inCooldown then noEffects
  else if !online then ⟨false, some p, true, false⟩
  else
    match sendRes with
    | .ok => ⟨true, none, true, true⟩
    | .notOk => ⟨true, some p, false, false⟩
    | .threw => ⟨true, some p, false, false⟩

/- ================================================================
   Service worker: public/sw.js, navigation branch of the fetch handler
   ================================================================ -/

/-- An HTTP response as the service worker sees it: status and body. -/
structure SWResponse where
  status : Nat
  body : String
deriving DecidableEq, Repr

/-- The res.ok test: status in the 200 to 299 range. -/
def swOk (r : SWResponse) : Bool := 200 ≤ r.status && r.status ≤ 299

/-- Outcome of the network fetch for a navigation request: a response, or
    a thrown network error. -/
inductive NetOutcome where
  | got (r : SWResponse)
  | netThrow

/-- The cache store, keyed by request URL path. -/
def SWCache := String → Option SWResponse

/-- The inline minimal offline HTML response built as the last resort of
    the navigation fallback chain (markup abridged to its text content);
    a Response constructed without an explicit status has status 200. -/
def inlineOffline : SWResponse :=
  ⟨200, "<!doctype html><title>Offline</title><h1>Offline</h1><p>No cached shell yet.</p><a href=/>Retry</a>"⟩

/-- The navigation branch of the fetch handler, for a GET document request
    to `path`: network-first; on a response, opportunistically cache it
    under the request when the path is the site root and res.ok holds; on
    a thrown fetch, answer with the first available of the exact cached
    match, the cached root shell, the cached offline page, and the inline
    offline response.  Returns the response and the updated cache. -/
def handleNavigate (cache : SWCache) (path : String) (net : NetOutcome) :
    SWResponse × SWCache :=
  match net with
  | .got res =>
    (res,
     if path = "/" ∧ swOk res then
       fun k => if k = "/" then some res else cache k
     else cache)
  | .netThrow =>
    (((cache path).getD ((cache "/").getD ((cache "/offline.html").getD
        inlineOffline))),
     cache)

/- ================================================================
   Theorems
   ================================================================ -/

/-- C1: FIFO integrity of the flush cycle.  For every outbox [A, B, C],
    running one flush cycle in which the endpoint accepts the first
    delivery attempt and returns a non-success response to the second
    leaves the outbox equal to [B, C]: A is removed after confirmed
    delivery, B is requeued at the front rather than skipped, and C keeps
    its position, so items are attempted in strict FIFO order. -/
theorem flush_fifo_integrity (A B C : OutboxItem) (online : Nat → Bool)
    (respAt : Nat → FetchResult) (hon : ∀ k, online k = true)
    (h0 : respAt 0 = .resp true) (h1 : respAt 1 = .resp false) :
    (flush true online respAt [A, B, C]).1.outbox = [B, C] := by
  simp [flush, flushLoop, hon, h0, h1]

/-- Witness for C1: the flush cycle at a concrete three-item outbox with a
    success on the first attempt and a non-success on the second. -/
theorem flush_fifo_integrity_witness :
    (flush true (fun _ => true)
      (fun k => if k = 0 then FetchResult.resp true else FetchResult.resp false)
      [⟨str "A", str "a@a.aa", str "ma", none, 0⟩,
       ⟨str "B", str "b@b.bb", str "mb", none, 1⟩,
       ⟨str "C", str "c@c.cc", str "mc", none, 2⟩]).1.outbox
      = [⟨str "B", str "b@b.bb", str "mb", none, 1⟩,
         ⟨str "C", str "c@c.cc", str "mc", none, 2⟩] :=
  flush_fifo_integrity _ _ _ _ _ (fun _ => rfl) rfl rfl

/-- C2 counterexample: the flush cycle can discard an item without a
    confirmed delivery.  With one queued item and a POST that throws a
    network exception mid-request, the flush loop aborts on the uncaught
    exception and the dequeued item is gone: the outbox ends empty, the
    item was never requeued. -/
theorem flush_netthrow_drops_item_cex :
    (flush true (fun _ => true) (fun _ => FetchResult.netThrow)
      [⟨str "Ann", str "a@b.co", str "Hi there", none, 0⟩]).1
      = ⟨[], false, true⟩ := by
  decide

/-- C2 amended: for every item dequeued during a flush cycle, a delivery
    attempt answered with a non-success response puts the item back at the
    front of the outbox and stops the loop; but a delivery attempt that
    throws a network exception mid-request aborts the loop with the
    dequeued item removed and not requeued, so that item is lost. -/
theorem flush_failure_requeue_or_loss (online : Nat → Bool)
    (respAt : Nat → FetchResult) (k : Nat) (next : OutboxItem)
    (rest : List OutboxItem) (anySent : Bool) (h : online k = true) :
    (respAt k = .resp false →
      flushLoop online respAt k (next :: rest) anySent
        = ⟨next :: rest, anySent, false⟩) ∧
    (respAt k = .netThrow →
      flushLoop online respAt k (next :: rest) anySent
        = ⟨rest, anySent, true⟩) := by
  constructor <;> intro hr <;> simp [flushLoop, h, hr]

/-- Witness for C2 amended: the requeue branch at a concrete one-item
    outbox whose delivery attempt returns a non-success response. -/
theorem flush_failure_requeue_or_loss_witness :
    flushLoop (fun _ => true) (fun _ => FetchResult.resp false) 0
      [⟨str "Ann", str "a@b.co", str "Hi there", none, 0⟩] false
      = ⟨[⟨str "Ann", str "a@b.co", str "Hi there", none, 0⟩], false, false⟩ :=
  (flush_failure_requeue_or_loss (fun _ => true) (fun _ => FetchResult.resp false)
    0 _ [] false rfl).1 rfl

/-- C3 counterexample: the cooldown timestamp is not written only on a
    confirmed successful send.  A valid submission made while offline (no
    cooldown active) is enqueued, no delivery is confirmed, and yet the
    persisted last-success timestamp key is written. -/
theorem onSubmit_offline_writes_lock_cex :
    (onSubmit (str "Ann") (str "a@b.co") (str "Hi there") [] false false
      SendOutcome.ok).lastSentWritten = true ∧
    (onSubmit (str "Ann") (str "a@b.co") (str "Hi there") [] false false
      SendOutcome.ok).queued
      = some (submittedPayload (str "Ann") (str "a@b.co") (str "Hi there") []) ∧
    (onSubmit (str "Ann") (str "a@b.co") (str "Hi there") [] false false
      SendOutcome.ok).networkCalled = false := by
  decide

/-- C3 amended: the persisted last-success timestamp is written exactly
    when a submission passes client validation with an empty honeypot and
    no active cooldown, and either the device is offline (the payload is
    enqueued and the timestamp written to lock the UI) or the online send
    succeeds; it is never written on a validation failure, a honeypot
    trip, a cooldown block, or a failed or thrown online delivery, and
    this component never removes the key. -/
theorem lastSent_write_characterization (name email message website : Str)
    (inCooldown online : Bool) (sendRes : SendOutcome) :
    (onSubmit name email message website inCooldown online sendRes).lastSentWritten
      = (clientValid (submittedPayload name email message website) &&
         website == [] && !inCooldown &&
         (!online || sendRes == SendOutcome.ok)) := by
  cases hcv : clientValid (submittedPayload name email message website) <;>
    cases website <;>
    cases inCooldown <;> cases online <;> cases sendRes <;>
    simp [onSubmit, noEffects, hcv]

/-- C4 counterexample: a valid submission while online whose direct POST
    returns a non-success response does not leave the outbox untouched:
    the payload is enqueued (and no cooldown lock is recorded), contrary to
    an Error transition without enqueuing. -/
theorem onSubmit_online_failure_enqueues_cex :
    (onSubmit (str "Ann") (str "a@b.co") (str "Hi there") [] false true
      SendOutcome.notOk).queued
      = some (submittedPayload (str "Ann") (str "a@b.co") (str "Hi there") []) ∧
    (onSubmit (str "Ann") (str "a@b.co") (str "Hi there") [] false true
      SendOutcome.notOk).lastSentWritten = false := by
  decide

/-- C4 amended: for every valid submission made while online with an empty
    honeypot and no active cooldown, a failed direct POST (non-success
    response or thrown network exception) enqueues the payload into the
    outbox as a safety net, without recording the cooldown lock or
    clearing the form; on success the cooldown lock is recorded, the form
    cleared, and nothing is enqueued. -/
theorem online_submit_policy (name email message website : Str)
    (sendRes : SendOutcome)
    (hv : clientValid (submittedPayload name email message website) = true)
    (hw : website = []) :
    (sendRes ≠ SendOutcome.ok →
      onSubmit name email message website false true sendRes
        = ⟨true, some (submittedPayload name email message website),
            false, false⟩) ∧
    (onSubmit name email message website false true SendOutcome.ok
        = ⟨true, none, true, true⟩) := by
  subst hw
  constructor
  · intro hne
    cases sendRes <;> simp_all [onSubmit, hv]
  · simp [onSubmit, hv]

/-- Witness for C4 amended: a concrete valid online submission whose POST
    returns a non-success response is enqueued. -/
theorem online_submit_policy_witness :
    onSubmit (str "Ann") (str "a@b.co") (str "Hi there") [] false true
      SendOutcome.notOk
      = ⟨true, some (submittedPayload (str "Ann") (str "a@b.co")
          (str "Hi there") []), false, false⟩ :=
  (online_submit_policy (str "Ann") (str "a@b.co") (str "Hi there") []
    SendOutcome.notOk (by decide) rfl).1 (by decide)

/-- C5: honeypot suppression.  For every submission whose honeypot field
    is non-empty, onSubmit performs no network call, enqueues nothing, and
    leaves the cooldown lock and the form untouched, regardless of
    connectivity, cooldown state and what a send would have returned. -/
theorem honeypot_suppression (name email message website : Str)
    (inCooldown online : Bool) (sendRes : SendOutcome)
    (hw : website ≠ []) :
    onSubmit name email message website inCooldown online sendRes
      = noEffects := by
  cases hcv : clientValid (submittedPayload name email message website) <;>
    simp [onSubmit, noEffects, hcv, hw]

/-- Witness for C5: a concrete otherwise-valid submission with a filled
    honeypot has no observable effect. -/
theorem honeypot_suppression_witness :
    onSubmit (str "Ann") (str "a@b.co") (str "Hi there") (str "spam-bot")
      false true SendOutcome.ok = noEffects :=
  honeypot_suppression (str "Ann") (str "a@b.co") (str "Hi there")
    (str "spam-bot") false true SendOutcome.ok (by decide)

/-- C6: connectivity probe contract.  isOnline is a total boolean function
    (so it never throws) and it returns false exactly when the browser flag
    reports offline or when both the ping-endpoint probe and the site-root
    fallback probe end in a network-level failure or the abort timeout; any
    HTTP response from either probe, whatever its status (404 included),
    makes it return true when the browser flag reports online. -/
theorem isOnline_characterization (nav : Bool) (p1 p2 : ProbeOutcome) :
    (isOnline nav p1 p2 = false ↔
      nav = false ∨
      ((p1 = ProbeOutcome.netFail ∨ p1 = ProbeOutcome.timeout) ∧
       (p2 = ProbeOutcome.netFail ∨ p2 = ProbeOutcome.timeout))) ∧
    (∀ s : Nat, isOnline true (ProbeOutcome.resp s) p2 = true ∧
      isOnline true p1 (ProbeOutcome.resp s) = true) := by
  constructor
  · cases nav <;> cases p1 <;> cases p2 <;> simp [isOnline, tryFetch]
  · intro s
    cases p1 <;> cases p2 <;> simp [isOnline, tryFetch]

/-- C7: service-worker navigation fallback chain.  Every navigation request
    is answered network-first, and a successful fetch of the site root is
    opportunistically cached; on network failure the handler answers with
    the first available of the exact cached match, the cached root shell,
    the cached offline page, and the inline minimal offline HTML, in that
    order: an exact match wins whatever else is cached, the root shell wins
    whatever the offline page holds, and the offline page wins over the
    inline response; in particular a root document cached during an earlier
    online visit is served instead of the inline fallback, and the handler
    always produces a response. -/
theorem sw_navigation_fallback (cache : SWCache) (res : SWResponse)
    (hok : swOk res = true) :
    (∀ path, (handleNavigate cache path (NetOutcome.got res)).1 = res) ∧
    (handleNavigate cache "/" (NetOutcome.got res)).2 "/" = some res ∧
    (handleNavigate ((handleNavigate cache "/" (NetOutcome.got res)).2) "/"
      NetOutcome.netThrow).1 = res ∧
    (∀ path r, cache path = some r →
      (handleNavigate cache path NetOutcome.netThrow).1 = r) ∧
    (∀ path r, cache path = none → cache "/" = some r →
      (handleNavigate cache path NetOutcome.netThrow).1 = r) ∧
    (∀ path r, cache path = none → cache "/" = none →
      cache "/offline.html" = some r →
      (handleNavigate cache path NetOutcome.netThrow).1 = r) ∧
    (∀ path, cache path = none → cache "/" = none →
      cache "/offline.html" = none →
      (handleNavigate cache path NetOutcome.netThrow).1 = inlineOffline) := by
  refine ⟨fun path => rfl, ?_, ?_, ?_, ?_, ?_, ?_⟩
  · simp [handleNavigate, hok]
  · simp [handleNavigate, hok]
  · intro path r h
    simp [handleNavigate, h]
  · intro path r h1 h2
    simp [handleNavigate, h1, h2]
  · intro path r h1 h2 h3
    simp [handleNavigate, h1, h2, h3]
  · intro path h1 h2 h3
    simp [handleNavigate, h1, h2, h3]

/-- Witness for C7: an empty cache, a successful root fetch, then a network
    failure on the same request: the previously cached root response is
    served, not the inline offline page. -/
theorem sw_navigation_fallback_witness :
    swOk ⟨200, "root-shell"⟩ = true ∧
    (handleNavigate ((handleNavigate (fun _ => none) "/"
        (NetOutcome.got ⟨200, "root-shell"⟩)).2) "/"
      NetOutcome.netThrow).1 = ⟨200, "root-shell"⟩ :=
  ⟨rfl, (sw_navigation_fallback (fun _ => none) ⟨200, "root-shell"⟩ rfl).2.2.1⟩

/-- C8: server-side message length boundary.  For every POST payload whose
    sanitised name, email and honeypot pass their checks and whose message
    is unchanged by sanitisation, a message of exactly 2 characters passes
    validation, while a message of length 1 and a message of length 4001
    are each rejected with a 400 Invalid message response. -/
theorem contact_message_length_boundary (raw : Payload)
    (hhp : (sanitizePayload raw).website = [])
    (hn1 : (sanitizePayload raw).name ≠ [])
    (hn2 : (sanitizePayload raw).name.length ≤ 120)
    (he1 : jsEmailTest (sanitizePayload raw).email = true)
    (he2 : (sanitizePayload raw).email.length ≤ 254)
    (hm : (sanitizePayload raw).message = raw.message) :
    (raw.message.length = 2 → validateContact raw = none) ∧
    (raw.message.length = 1 →
      validateContact raw = some (badRequest (str "Invalid message."))) ∧
    (raw.message.length = 4001 →
      validateContact raw = some (badRequest (str "Invalid message."))) := by
  have hw : ¬ ((sanitizePayload raw).website ≠ []) := by simp [hhp]
  have hn : ¬ ((sanitizePayload raw).name = [] ∨
      120 < (sanitizePayload raw).name.length) := by
    push_neg
    exact ⟨hn1, by omega⟩
  have he : ¬ (¬ jsEmailTest (sanitizePayload raw).email = true ∨
      254 < (sanitizePayload raw).email.length) := by
    push_neg
    exact ⟨he1, by omega⟩
  refine ⟨?_, ?_, ?_⟩ <;> intro hlen <;> rw [← hm] at hlen
  · have hmsg : ¬ ((sanitizePayload raw).message = [] ∨
        (sanitizePayload raw).message.length < 2 ∨
        4000 < (sanitizePayload raw).message.length) := by
      push_neg
      refine ⟨?_, by omega, by omega⟩
      intro hnil
      simp [hnil] at hlen
    rw [validateContact, if_neg hw, if_neg hn, if_neg he, if_neg hmsg]
  · have hmsg : (sanitizePayload raw).message = [] ∨
        (sanitizePayload raw).message.length < 2 ∨
        4000 < (sanitizePayload raw).message.length := by
      right; left; omega
    rw [validateContact, if_neg hw, if_neg hn, if_neg he, if_pos hmsg]
  · have hmsg : (sanitizePayload raw).message = [] ∨
        (sanitizePayload raw).message.length < 2 ∨
        4000 < (sanitizePayload raw).message.length := by
      right; right; omega
    rw [validateContact, if_neg hw, if_neg hn, if_neg he, if_pos hmsg]

/-- Witness for C8: the concrete payload name Ann, email a@b.co, empty
    honeypot and the two-character message Hi passes validation. -/
theorem contact_message_length_boundary_witness :
    (sanitizePayload ⟨str "Ann", str "a@b.co", str "Hi", []⟩).message
      = str "Hi" ∧
    validateContact ⟨str "Ann", str "a@b.co", str "Hi", []⟩ = none :=
  ⟨by decide,
   (contact_message_length_boundary ⟨str "Ann", str "a@b.co", str "Hi", []⟩
     (by decide) (by decide) (by decide) (by decide) (by decide)
     (by decide)).1 (by decide)⟩

/-- C9: a provider failure is not observable as a failure through the
    programmatic client.  At a concrete valid submission where the mail
    provider reports an error, the endpoint answers with a 303 redirect
    carrying the email_failed error flag, and the client send helper,
    which treats 2xx, 204 and 303 alike as success, classifies that
    response as a success: the failed delivery is reported as sent. -/
theorem provider_error_reported_as_success :
    (contactPOST ⟨str "Ann", str "a@b.co", str "Hi there", []⟩ true
      ProviderOutcome.errored).response
      = ContactResponse.redirect 303 false (some (str "email_failed")) ∧
    sendTreatsAsSuccess (responseStatus
      (contactPOST ⟨str "Ann", str "a@b.co", str "Hi there", []⟩ true
        ProviderOutcome.errored).response) = true := by
  decide

/-- C10: an empty or missing name is never rejected as an invalid name:
    the server substitutes the literal Anonymous before validating, so the
    Invalid name branch is unreachable for empty names, and when the
    honeypot is empty and email and message pass their checks the mail is
    handed to the provider with sender name Anonymous. -/
theorem contact_empty_name_anonymous (raw : Payload) (h : raw.name = []) :
    validateContact raw ≠ some (badRequest (str "Invalid name.")) ∧
    ((sanitizePayload raw).website = [] →
     jsEmailTest (sanitizePayload raw).email = true →
     (sanitizePayload raw).email.length ≤ 254 →
     2 ≤ (sanitizePayload raw).message.length →
     (sanitizePayload raw).message.length ≤ 4000 →
     ∀ provider, (contactPOST raw true provider).mail
        = some ⟨str "Anonymous", (sanitizePayload raw).email,
            (sanitizePayload raw).message⟩) := by
  have hname : (sanitizePayload raw).name = str "Anonymous" := by
    show sanitize (if raw.name = [] then str "Anonymous" else raw.name)
      = str "Anonymous"
    rw [h]
    decide
  have hn : ¬ ((sanitizePayload raw).name = [] ∨
      120 < (sanitizePayload raw).name.length) := by
    rw [hname]
    decide
  constructor
  · by_cases hw : (sanitizePayload raw).website ≠ []
    · rw [validateContact, if_pos hw]
      decide
    · rw [validateContact, if_neg hw, if_neg hn]
      by_cases he : ¬ jsEmailTest (sanitizePayload raw).email = true ∨
          254 < (sanitizePayload raw).email.length
      · rw [if_pos he]
        decide
      · rw [if_neg he]
        by_cases hmsg : (sanitizePayload raw).message = [] ∨
            (sanitizePayload raw).message.length < 2 ∨
            4000 < (sanitizePayload raw).message.length
        · rw [if_pos hmsg]
          decide
        · rw [if_neg hmsg]
          simp
  · intro hhp he1 he2 hm1 hm2 provider
    have hw : ¬ ((sanitizePayload raw).website ≠ []) := by simp [hhp]
    have he : ¬ (¬ jsEmailTest (sanitizePayload raw).email = true ∨
        254 < (sanitizePayload raw).email.length) := by
      push_neg
      exact ⟨he1, by omega⟩
    have hmsg : ¬ ((sanitizePayload raw).message = [] ∨
        (sanitizePayload raw).message.length < 2 ∨
        4000 < (sanitizePayload raw).message.length) := by
      push_neg
      refine ⟨?_, by omega, by omega⟩
      intro hnil
      rw [hnil] at hm1
      simp at hm1
    have hval : validateContact raw = none := by
      rw [validateContact, if_neg hw, if_neg hn, if_neg he, if_neg hmsg]
    cases provider <;> simp [contactPOST, hval, hname]

/-- Witness for C10: the concrete payload with an empty name, email
    a@b.co, message Hi there and empty honeypot is not rejected for its
    name, and the provider receives sender name Anonymous. -/
theorem contact_empty_name_anonymous_witness :
    validateContact ⟨[], str "a@b.co", str "Hi there", []⟩
      ≠ some (badRequest (str "Invalid name.")) ∧
    (contactPOST ⟨[], str "a@b.co", str "Hi there", []⟩ true
      ProviderOutcome.sent).mail
      = some ⟨str "Anonymous", str "a@b.co", str "Hi there"⟩ :=
  ⟨(contact_empty_name_anonymous ⟨[], str "a@b.co", str "Hi there", []⟩ rfl).1,
   by
    have := (contact_empty_name_anonymous
      ⟨[], str "a@b.co", str "Hi there", []⟩ rfl).2
      (by decide) (by decide) (by decide) (by decide) (by decide)
      ProviderOutcome.sent
    simpa using this⟩

end CrateBunker
